import Mathlib

/-!
Verification of the impersonation connector factory of `rquest`
(`src/impersonate/mod.rs` and `src/impersonate/chrome/cronet.rs`),
as a shallow embedding in Lean 4.

Modelling conventions:
* `Impersonate` / `ClientProfile` live in `profile.rs`, which is not part of
  the provided sources; they are modelled from the spec (closed family set,
  representative profile variants).
* The TLS engine extension helpers (`configure_alpn_protos`,
  `configure_cert_verification`, `configure_cipher_list`, ...) live in
  `extension.rs`, also not provided; they are modelled from the spec as
  trace-recording builder operations.
* `Arc`/`tokio::sync::OnceCell` sharing is made explicit: a `SessionStore`
  is a list of once-cells, and a `BoringTlsConnector` holds an index into
  it.  `Clone` on the wrapper copies the index (pointer copy), so clones
  share the cell.
* The hyper-boring `HttpsConnector` constructors are external fallible
  calls (the source propagates their errors with `?`); their outcome is an
  explicit boolean input `ctorOk` of `create_connector`.
-/

set_option autoImplicit false

namespace Rquest

/-- Modelled from the spec: the `Impersonate` enum of `profile.rs` (not under
`src/`).  It contains the ten variants named in the PSK allow-list of
`create_connector` plus representative members of every client family the
spec names (Chrome-family, Edge-family, Safari-family, OkHttp-family). -/
inductive Impersonate where
  | Chrome100
  | Chrome116
  | Chrome117
  | Chrome120
  | Chrome123
  | Chrome124
  | Chrome126
  | Chrome127
  | Cronet
  | Edge101
  | Edge122
  | Edge127
  | Safari15_3
  | SafariIos17_2
  | OkHttp3_13
  | OkHttp4_9
  deriving DecidableEq, Repr, Fintype

/-- Modelled from the spec: the closed set of client families
(`ClientProfile` in `profile.rs`, not under `src/`). -/
inductive ClientProfile where
  | Chrome
  | Edge
  | Safari
  | OkHttp
  deriving DecidableEq, Repr

/-- Modelled from the spec: the family tag of each profile
(`Impersonate::profile()` in `profile.rs`, not under `src/`).  Cronet is
Chrome-family (its settings module lives under `chrome/` and uses the
Chrome extension builder). -/
def Impersonate.profile : Impersonate → ClientProfile
  | .Chrome100 => .Chrome
  | .Chrome116 => .Chrome
  | .Chrome117 => .Chrome
  | .Chrome120 => .Chrome
  | .Chrome123 => .Chrome
  | .Chrome124 => .Chrome
  | .Chrome126 => .Chrome
  | .Chrome127 => .Chrome
  | .Cronet => .Chrome
  | .Edge101 => .Edge
  | .Edge122 => .Edge
  | .Edge127 => .Edge
  | .Safari15_3 => .Safari
  | .SafariIos17_2 => .Safari
  | .OkHttp3_13 => .OkHttp
  | .OkHttp4_9 => .OkHttp

/-- `ImpersonateContext` from `mod.rs` lines 30-37: the immutable
per-client descriptor. -/
structure ImpersonateContext where
  impersonate : Impersonate
  enable_ech_grease : Bool
  permute_extensions : Bool
  certs_verification : Bool
  pre_shared_key : Bool
  h2 : Bool
  deriving DecidableEq, Repr

/-- The boring `ErrorStack` error type, opaque to this module. -/
inductive ErrorStack where
  | errorStack
  deriving DecidableEq, Repr

/-- One handshake-shaping operation applied to an `SslConnectorBuilder`.
The cipher list and curve list contents are opaque static configuration
data (spec section 1: out of scope), so only their identity is recorded. -/
inductive BuilderOp where
  | cipherList (list : String)
  | chromeNewCurves
  | alpnProtos (protos : List String)
  | certVerification (verify : Bool)
  deriving DecidableEq, Repr

/-- A boring `SslConnectorBuilder`, modelled as the ordered trace of the
configuration operations applied to it since construction. -/
structure SslConnectorBuilder where
  ops : List BuilderOp
  deriving DecidableEq, Repr

/-- Modelled from the spec: `configure_cipher_list` of `extension.rs` (not
under `src/`) sets the profile's exact ordered cipher string; fallible at
the engine boundary, total on well-formed static data. -/
def SslConnectorBuilder.configure_cipher_list (b : SslConnectorBuilder)
    (list : String) : Except ErrorStack SslConnectorBuilder :=
  .ok ⟨b.ops ++ [.cipherList list]⟩

/-- Modelled from the spec: `configure_chrome_new_curves` of `extension.rs`
(not under `src/`) sets the Chrome ordered curve list. -/
def SslConnectorBuilder.configure_chrome_new_curves (b : SslConnectorBuilder) :
    Except ErrorStack SslConnectorBuilder :=
  .ok ⟨b.ops ++ [.chromeNewCurves]⟩

/-- Modelled from the spec: `configure_alpn_protos` of `extension.rs` (not
under `src/`) offers `h2,http/1.1` when HTTP/2 is requested and `http/1.1`
only otherwise. -/
def SslConnectorBuilder.configure_alpn_protos (b : SslConnectorBuilder)
    (h2 : Bool) : Except ErrorStack SslConnectorBuilder :=
  .ok ⟨b.ops ++ [.alpnProtos (if h2 then ["h2", "http/1.1"] else ["http/1.1"])]⟩

/-- Modelled from the spec: `configure_cert_verification` of `extension.rs`
(not under `src/`) sets the certificate verification policy per flag. -/
def SslConnectorBuilder.configure_cert_verification (b : SslConnectorBuilder)
    (verify : Bool) : Except ErrorStack SslConnectorBuilder :=
  .ok ⟨b.ops ++ [.certVerification verify]⟩

/-- Modelled from the spec: `ChromeExtension::builder()` of `extension.rs`
(not under `src/`) produces a fresh, unconfigured transport builder. -/
def ChromeExtension.builder : Except ErrorStack SslConnectorBuilder :=
  .ok ⟨[]⟩

/-- The static Chrome cipher-suite string `CIPHER_LIST` of `chrome/mod.rs`
(not under `src/`); opaque static configuration data per the spec. -/
def CIPHER_LIST : String := "chrome-static-cipher-list"

/-- `DEFAULT_SESSION_CACHE_CAPACITY` from `mod.rs` line 39. -/
def DEFAULT_SESSION_CACHE_CAPACITY : Nat := 8

/-- The hyper-boring `SessionCache`, modelled by its construction
parameter (the capacity bound). -/
structure SessionCache where
  capacity : Nat
  deriving DecidableEq, Repr

/-- `SessionCache::with_capacity`. -/
def SessionCache.with_capacity (n : Nat) : SessionCache := ⟨n⟩

/-- `type Session = Arc<Mutex<SessionCache>>` from `mod.rs` line 41; the
`Arc`/`Mutex` wrappers are erased, sharing is modelled by the store below. -/
abbrev Session := SessionCache

/-- The contents of one `tokio::sync::OnceCell<Session>`: `none` while
uninitialized, `some s` once initialized with `s`. -/
abbrev SessionCell := Option Session

/-- The heap of once-cells.  Each `BoringTlsConnector` holds an index into
this store; `Arc` sharing (and `Clone`) is index sharing. -/
abbrev SessionStore := List SessionCell

/-- `BoringTlsConnector` from `mod.rs` lines 44-50: the builder closure
(modelled by its result, the closure being a pure repeatable factory) and
the `Arc<OnceCell<Session>>` (modelled as a store index). -/
structure BoringTlsConnector where
  builder : Except ErrorStack SslConnectorBuilder
  sessionRef : Nat
  deriving Repr

/-- `BoringTlsConnector::new` from `mod.rs` lines 54-62: wraps the builder
function and allocates a fresh, uninitialized once-cell. -/
def BoringTlsConnector.new (builder : Except ErrorStack SslConnectorBuilder)
    (store : SessionStore) : BoringTlsConnector × SessionStore :=
  (⟨builder, store.length⟩, store ++ [none])

/-- The derived `Clone` of `BoringTlsConnector`: both fields are `Arc`s, so
cloning copies the pointers — the clone shares the builder and the
once-cell with the original. -/
def BoringTlsConnector.clone (c : BoringTlsConnector) : BoringTlsConnector := c

/-- `OnceCell::get_or_init` on the cell at `ref`: returns the stored value
if the cell is initialized, otherwise runs the initializer (here
`Session::new(Mutex::new(SessionCache::with_capacity(8)))`, from `mod.rs`
lines 96-100) and stores its result. -/
def getOrInitSession (store : SessionStore) (ref : Nat) :
    Session × SessionStore :=
  match store[ref]? with
  | some (some s) => (s, store)
  | _ =>
    let s := SessionCache.with_capacity DEFAULT_SESSION_CACHE_CAPACITY
    (s, store.set ref (some s))

/-- `HttpsLayerSettings` built at `mod.rs` lines 107-110: the session cache
capacity and the shared cache handle. -/
structure HttpsLayerSettings where
  session_cache_capacity : Nat
  session_cache : Session
  deriving DecidableEq, Repr

/-- A boring per-connection `ConnectConfiguration`, modelled by the three
per-connection extension switches `configure_ssl_context` may set; `none`
means the corresponding engine call was never made on this connection. -/
structure ConnectConfiguration where
  permute_extensions : Option Bool
  enable_ech_grease : Option Bool
  add_application_settings : Option Bool
  deriving DecidableEq, Repr

/-- `configure_ssl_context` from `mod.rs` lines 141-150: applies extension
permutation, ECH GREASE and the application-settings extension to the
per-connection configuration, gated on the profile family being Chrome or
Edge; for any other family it performs no configuration call. -/
def configure_ssl_context (conf : ConnectConfiguration)
    (ctx : ImpersonateContext) : ConnectConfiguration :=
  if ctx.impersonate.profile = ClientProfile.Chrome ∨
      ctx.impersonate.profile = ClientProfile.Edge then
    { permute_extensions := some ctx.permute_extensions
      enable_ech_grease := some ctx.enable_ech_grease
      add_application_settings := some ctx.h2 }
  else
    conf

/-- The hyper-boring `HttpsConnector`: the configured builder it was built
from, the optional resumption settings (`with_connector_and_settings` vs
`with_connector`), and the per-connection callback installed with
`set_callback`.  The callback returns the updated configuration and the
`Result` it reports to the engine. -/
structure HttpsConnector where
  builder : SslConnectorBuilder
  settings : Option HttpsLayerSettings
  callback : ConnectConfiguration → ConnectConfiguration × Except ErrorStack Unit

/-- `HttpsConnector::with_connector_and_settings` (external constructor);
the base `HttpConnector` carries no modelled state.  The default callback
leaves the configuration untouched. -/
def HttpsConnector.with_connector_and_settings (builder : SslConnectorBuilder)
    (settings : HttpsLayerSettings) : HttpsConnector :=
  ⟨builder, some settings, fun conf => (conf, .ok ())⟩

/-- `HttpsConnector::with_connector` (external constructor, no resumption
support). -/
def HttpsConnector.with_connector (builder : SslConnectorBuilder) :
    HttpsConnector :=
  ⟨builder, none, fun conf => (conf, .ok ())⟩

/-- `set_callback` as used at `mod.rs` lines 116-121: installs the closure
that runs `configure_ssl_context` on the captured context clone and always
returns `Ok(())`. -/
def HttpsConnector.set_impersonate_callback (conn : HttpsConnector)
    (ctx : ImpersonateContext) : HttpsConnector :=
  { conn with callback := fun conf => (configure_ssl_context conf ctx, .ok ()) }

/-- The PSK allow-list test from `mod.rs` lines 77-89 (the `matches!` on
`context.impersonate` bound to `psk_extension`). -/
def psk_extension (i : Impersonate) : Bool :=
  match i with
  | .Chrome116 => true
  | .Chrome117 => true
  | .Chrome120 => true
  | .Chrome123 => true
  | .Chrome124 => true
  | .Chrome126 => true
  | .Chrome127 => true
  | .Cronet => true
  | .Edge122 => true
  | .Edge127 => true
  | _ => false

/-- `BoringTlsConnector::create_connector` from `mod.rs` lines 66-123.
Step 1 invokes the builder closure; step 2 applies ALPN and certificate
verification; step 3 evaluates the PSK gate, initializing the shared
session cell only when the gate is satisfied, and calls the external
hyper-boring constructor (whose success is the input `ctorOk`, since the
source propagates its error with a question mark); step 4 installs the
finalization callback.  Returns the `Result` together with the updated
session store. -/
def BoringTlsConnector.create_connector (self : BoringTlsConnector)
    (ctx : ImpersonateContext) (store : SessionStore) (ctorOk : Bool) :
    Except ErrorStack HttpsConnector × SessionStore :=
  match (do
    let b ← self.builder
    let b ← b.configure_alpn_protos ctx.h2
    b.configure_cert_verification ctx.certs_verification :
      Except ErrorStack SslConnectorBuilder) with
  | .error e => (.error e, store)
  | .ok builder =>
    if psk_extension ctx.impersonate || ctx.pre_shared_key then
      let p := getOrInitSession store self.sessionRef
      if ctorOk then
        let conn := HttpsConnector.with_connector_and_settings builder
          ⟨DEFAULT_SESSION_CACHE_CAPACITY, p.1⟩
        (.ok (conn.set_impersonate_callback ctx), p.2)
      else
        (.error .errorStack, p.2)
    else
      if ctorOk then
        (.ok ((HttpsConnector.with_connector builder).set_impersonate_callback
          ctx), store)
      else
        (.error .errorStack, store)

/-- `Http2Settings` from `profile.rs` as used by `cronet.rs` lines 17-24:
each field optional, `none` meaning no override. -/
structure Http2Settings where
  initial_stream_window_size : Option Nat
  initial_connection_window_size : Option Nat
  max_concurrent_streams : Option Nat
  max_header_list_size : Option Nat
  header_table_size : Option Nat
  enable_push : Option Bool
  deriving DecidableEq, Repr

/-- A header map, modelled as an association list of (name, value) pairs
with lowercase names (the `http` crate normalizes names). -/
abbrev HeaderMap := List (String × String)

/-- The `ACCEPT_ENCODING` standard header name. -/
def ACCEPT_ENCODING : String := "accept-encoding"

/-- `HeaderMap::insert`: replaces every value stored under the key with
the single new value, leaving entries under other keys unchanged. -/
def headerInsert (k v : String) (m : HeaderMap) : HeaderMap :=
  m.filter (fun p => p.1 ≠ k) ++ [(k, v)]

/-- First stored value under a key, the lookup view of a header map. -/
def headerGet (k : String) (m : HeaderMap) : Option String :=
  (m.find? (fun p => p.1 = k)).map (fun p => p.2)

/-- `create_headers` from `cronet.rs` lines 31-37: overwrites the
Accept-Encoding entry of the caller-supplied map. -/
def create_headers (headers : HeaderMap) : HeaderMap :=
  headerInsert ACCEPT_ENCODING "gzip, deflate, br, zstd" headers

/-- The Cronet builder closure passed to `BoringTlsConnector::new` in
`cronet.rs` lines 12-16: fresh Chrome builder, cipher list, new curves. -/
def cronetBuilder : Except ErrorStack SslConnectorBuilder := do
  let b ← ChromeExtension.builder
  let b ← b.configure_cipher_list CIPHER_LIST
  b.configure_chrome_new_curves

/-- `ImpersonateSettings` as populated by `cronet.rs`. -/
structure ImpersonateSettings where
  tls_connector : BoringTlsConnector
  http2 : Http2Settings
  headers : HeaderMap
  gzip : Bool
  brotli : Bool

/-- `get_settings` from `cronet.rs` lines 10-29.  Allocating the wrapper
(`BoringTlsConnector::new`) allocates a fresh once-cell, hence the store
threading. -/
def get_settings (headers : HeaderMap) (store : SessionStore) :
    ImpersonateSettings × SessionStore :=
  let (c, store') := BoringTlsConnector.new cronetBuilder store
  ({ tls_connector := c
     http2 :=
      { initial_stream_window_size := some 6291456
        initial_connection_window_size := some 15728640
        max_concurrent_streams := none
        max_header_list_size := some 262144
        header_table_size := some 65536
        enable_push := some false }
     headers := create_headers headers
     gzip := true
     brotli := true }, store')

/-- The result of applying the `create_connector` pipeline steps (ALPN per
`h2`, certificate verification per `certs_verification`) to a builder
produced by the builder closure. -/
def pipelineBuilder (b : SslConnectorBuilder) (ctx : ImpersonateContext) :
    SslConnectorBuilder :=
  ⟨(b.ops ++ [.alpnProtos (if ctx.h2 then ["h2", "http/1.1"] else ["http/1.1"])])
    ++ [.certVerification ctx.certs_verification]⟩

/-- The connector `create_connector` returns on the success path, given the
builder closure's output `b`. -/
def builtConnector (b : SslConnectorBuilder) (ctx : ImpersonateContext)
    (store : SessionStore) (ref : Nat) : HttpsConnector :=
  if psk_extension ctx.impersonate || ctx.pre_shared_key then
    (HttpsConnector.with_connector_and_settings (pipelineBuilder b ctx)
      ⟨DEFAULT_SESSION_CACHE_CAPACITY,
        (getOrInitSession store ref).1⟩).set_impersonate_callback ctx
  else
    (HttpsConnector.with_connector (pipelineBuilder b ctx)).set_impersonate_callback
      ctx

/-- A Cronet context with every optional flag at its builder default
(`enable_ech_grease = false`, `permute_extensions = false`,
`certs_verification = true`, `pre_shared_key = false`, `h2 = true`). -/
def cronetDefaultCtx : ImpersonateContext :=
  ⟨.Cronet, false, false, true, false, true⟩

/-- The builder value produced by the Cronet builder closure. -/
def cronetBuilderValue : SslConnectorBuilder :=
  ⟨[.cipherList CIPHER_LIST, .chromeNewCurves]⟩

/-- The concrete connector `create_connector` yields for the default Cronet
context on a wrapper whose cell is the single uninitialized cell `0`. -/
def cronetSampleConnector : HttpsConnector :=
  builtConnector cronetBuilderValue cronetDefaultCtx [none] 0

/-- Unfolding lemma: on a wrapper whose builder closure succeeds with `b`,
`create_connector` takes the shape dictated by the PSK gate and the
external constructor outcome. -/
theorem create_connector_eq (self : BoringTlsConnector)
    (ctx : ImpersonateContext) (store : SessionStore) (ctorOk : Bool)
    (b : SslConnectorBuilder) (hb : self.builder = Except.ok b) :
    self.create_connector ctx store ctorOk =
      (if psk_extension ctx.impersonate || ctx.pre_shared_key then
        if ctorOk then
          (Except.ok (builtConnector b ctx store self.sessionRef),
            (getOrInitSession store self.sessionRef).2)
        else
          (Except.error ErrorStack.errorStack,
            (getOrInitSession store self.sessionRef).2)
      else if ctorOk then
        (Except.ok (builtConnector b ctx store self.sessionRef), store)
      else
        (Except.error ErrorStack.errorStack, store)) := by
  unfold BoringTlsConnector.create_connector builtConnector
  rw [hb]
  have hpipe : (do
      let b2 ← (Except.ok b : Except ErrorStack SslConnectorBuilder)
      let b3 ← b2.configure_alpn_protos ctx.h2
      b3.configure_cert_verification ctx.certs_verification :
        Except ErrorStack SslConnectorBuilder) =
      Except.ok (pipelineBuilder b ctx) := rfl
  rw [hpipe]
  by_cases hg : (psk_extension ctx.impersonate || ctx.pre_shared_key) = true <;>
    by_cases hc : ctorOk = true <;>
    simp [hg, hc]

/-- Unfolding lemma: when the builder closure fails, `create_connector`
propagates its error and leaves the store untouched. -/
theorem create_connector_builder_error (self : BoringTlsConnector)
    (ctx : ImpersonateContext) (store : SessionStore) (ctorOk : Bool)
    (e : ErrorStack) (hb : self.builder = Except.error e) :
    self.create_connector ctx store ctorOk = (Except.error e, store) := by
  unfold BoringTlsConnector.create_connector
  rw [hb]
  rfl

/-- C1: `create_connector` builds the connector with session resumption
(settings bound to the shared cache) exactly when the profile is in the
fixed PSK allow-list or the context's `pre_shared_key` flag is set; when
the gate is not satisfied the session cell is never initialized (store
unchanged) and the connector carries no resumption settings.  The
allow-list is exactly the ten profiles of the claim, so in particular
Cronet is allow-listed even with all flags default. -/
theorem create_connector_psk_gating (self : BoringTlsConnector)
    (ctx : ImpersonateContext) (store : SessionStore)
    (b : SslConnectorBuilder) (hb : self.builder = Except.ok b) :
    (∀ conn, (self.create_connector ctx store true).1 = Except.ok conn →
      (conn.settings.isSome = true ↔
        (psk_extension ctx.impersonate || ctx.pre_shared_key) = true)) ∧
    ((psk_extension ctx.impersonate || ctx.pre_shared_key) = false →
      (self.create_connector ctx store true).2 = store ∧
      ∀ conn, (self.create_connector ctx store true).1 = Except.ok conn →
        conn.settings = none) ∧
    (∀ i : Impersonate, psk_extension i = true ↔
      i ∈ [Impersonate.Chrome116, Impersonate.Chrome117, Impersonate.Chrome120,
        Impersonate.Chrome123, Impersonate.Chrome124, Impersonate.Chrome126,
        Impersonate.Chrome127, Impersonate.Cronet, Impersonate.Edge122,
        Impersonate.Edge127]) := by
  rw [create_connector_eq self ctx store true b hb]
  refine ⟨?_, ?_, by decide⟩
  · intro conn h
    by_cases hg : (psk_extension ctx.impersonate || ctx.pre_shared_key) = true
    · simp only [hg, if_true] at h
      simp only [Except.ok.injEq] at h
      subst h
      simp [builtConnector, hg, HttpsConnector.with_connector_and_settings,
        HttpsConnector.set_impersonate_callback]
    · simp only [hg, if_false, if_true] at h
      simp only [Bool.not_eq_true] at hg
      simp only [hg, Bool.false_eq_true, if_false, if_true,
        Except.ok.injEq] at h
      subst h
      simp [builtConnector, hg, HttpsConnector.with_connector,
        HttpsConnector.set_impersonate_callback]
  · intro hg
    simp only [hg, Bool.false_eq_true, if_false, if_true]
    refine ⟨trivial, ?_⟩
    intro conn h
    simp only [Except.ok.injEq] at h
    subst h
    simp [builtConnector, hg, HttpsConnector.with_connector,
      HttpsConnector.set_impersonate_callback]

/-- C1 witness: for the Cronet profile with all flags default, on a fresh
wrapper, the returned connector has resumption enabled. -/
theorem create_connector_psk_gating_witness :
    cronetSampleConnector.settings.isSome = true :=
  ((create_connector_psk_gating ⟨cronetBuilder, 0⟩ cronetDefaultCtx [none]
      cronetBuilderValue rfl).1 cronetSampleConnector
    (by rw [create_connector_eq ⟨cronetBuilder, 0⟩ cronetDefaultCtx [none] true
        cronetBuilderValue rfl]; rfl)).mpr (by decide)

/-- C3: the per-connection finalization applies extension permutation, ECH
GREASE and the application-settings extension per the context's flags when
the profile family is Chrome or Edge, and for every other family it makes
none of the three configuration calls: the connection configuration is
returned unchanged regardless of the flag values. -/
theorem configure_ssl_context_family_gating (conf : ConnectConfiguration)
    (ctx : ImpersonateContext) :
    ((ctx.impersonate.profile = ClientProfile.Chrome ∨
        ctx.impersonate.profile = ClientProfile.Edge) →
      configure_ssl_context conf ctx =
        { permute_extensions := some ctx.permute_extensions
          enable_ech_grease := some ctx.enable_ech_grease
          add_application_settings := some ctx.h2 }) ∧
    (ctx.impersonate.profile ≠ ClientProfile.Chrome ∧
        ctx.impersonate.profile ≠ ClientProfile.Edge →
      configure_ssl_context conf ctx = conf) := by
  constructor
  · intro h
    simp [configure_ssl_context, h]
  · intro h
    simp [configure_ssl_context, h.1, h.2]

/-- C3 witness: an OkHttp-family context with every flag set leaves the
configuration untouched, while a Chrome-family context sets all three
switches. -/
theorem configure_ssl_context_family_gating_witness :
    configure_ssl_context ⟨none, none, none⟩
        ⟨Impersonate.OkHttp4_9, true, true, true, true, true⟩ =
      ⟨none, none, none⟩ ∧
    configure_ssl_context ⟨none, none, none⟩
        ⟨Impersonate.Chrome124, true, false, true, false, true⟩ =
      ⟨some false, some true, some true⟩ :=
  ⟨(configure_ssl_context_family_gating ⟨none, none, none⟩
      ⟨Impersonate.OkHttp4_9, true, true, true, true, true⟩).2
      (by constructor <;> decide),
    (configure_ssl_context_family_gating ⟨none, none, none⟩
      ⟨Impersonate.Chrome124, true, false, true, false, true⟩).1
      (Or.inl (by decide))⟩

/-- C6: the finalization callback installed by `create_connector` never
fails the connection: on every configuration object it runs
`configure_ssl_context` (an infallible function) and reports `Ok(())`. -/
theorem create_connector_callback_never_fails (self : BoringTlsConnector)
    (ctx : ImpersonateContext) (store : SessionStore) (ctorOk : Bool)
    (conn : HttpsConnector) (conf : ConnectConfiguration)
    (h : (self.create_connector ctx store ctorOk).1 = Except.ok conn) :
    conn.callback conf = (configure_ssl_context conf ctx, Except.ok ()) := by
  cases hb : self.builder with
  | error e =>
    rw [create_connector_builder_error self ctx store ctorOk e hb] at h
    exact absurd h (by simp)
  | ok b =>
    rw [create_connector_eq self ctx store ctorOk b hb] at h
    by_cases hg : (psk_extension ctx.impersonate || ctx.pre_shared_key) = true <;>
      by_cases hc : ctorOk = true <;>
      simp only [hg, hc, Bool.false_eq_true, if_true, if_false,
        Except.ok.injEq, reduceCtorEq] at h
    · subst h
      simp [builtConnector, hg, HttpsConnector.with_connector_and_settings,
        HttpsConnector.set_impersonate_callback]
    · subst h
      simp only [Bool.not_eq_true] at hg
      simp [builtConnector, hg, HttpsConnector.with_connector,
        HttpsConnector.set_impersonate_callback]

/-- C6 witness: the callback of the connector built for the default Cronet
context runs the finalization and returns success on a blank
configuration. -/
theorem create_connector_callback_never_fails_witness :
    cronetSampleConnector.callback ⟨none, none, none⟩ =
      (configure_ssl_context ⟨none, none, none⟩ cronetDefaultCtx,
        Except.ok ()) :=
  create_connector_callback_never_fails ⟨cronetBuilder, 0⟩ cronetDefaultCtx
    [none] true cronetSampleConnector ⟨none, none, none⟩
    (by rw [create_connector_eq ⟨cronetBuilder, 0⟩ cronetDefaultCtx [none] true
        cronetBuilderValue rfl]; rfl)

/-- C7: for the Cronet wrapper, the handshake-shaping steps reach the
builder in the fixed order cipher list, curve list, ALPN list chosen by
the `h2` flag (`h2,http/1.1` when set, `http/1.1` otherwise), certificate
verification per the `certs_verification` flag. -/
theorem cronet_pipeline_order (ref : Nat) (ctx : ImpersonateContext)
    (store : SessionStore) (ctorOk : Bool) (conn : HttpsConnector)
    (h : ((BoringTlsConnector.mk cronetBuilder ref).create_connector
      ctx store ctorOk).1 = Except.ok conn) :
    conn.builder.ops =
      [BuilderOp.cipherList CIPHER_LIST, BuilderOp.chromeNewCurves,
        BuilderOp.alpnProtos (if ctx.h2 then ["h2", "http/1.1"] else ["http/1.1"]),
        BuilderOp.certVerification ctx.certs_verification] := by
  rw [create_connector_eq (BoringTlsConnector.mk cronetBuilder ref) ctx store
    ctorOk cronetBuilderValue rfl] at h
  by_cases hg : (psk_extension ctx.impersonate || ctx.pre_shared_key) = true <;>
    by_cases hc : ctorOk = true <;>
    simp only [hg, hc, Bool.false_eq_true, if_true, if_false,
      Except.ok.injEq, reduceCtorEq] at h
  · subst h
    simp [builtConnector, hg, pipelineBuilder, cronetBuilderValue,
      HttpsConnector.with_connector_and_settings,
      HttpsConnector.set_impersonate_callback]
  · subst h
    simp only [Bool.not_eq_true] at hg
    simp [builtConnector, hg, pipelineBuilder, cronetBuilderValue,
      HttpsConnector.with_connector, HttpsConnector.set_impersonate_callback]

/-- C7 witness: the default Cronet context yields exactly the four-step
trace with the HTTP/2-capable ALPN list and verification on. -/
theorem cronet_pipeline_order_witness :
    cronetSampleConnector.builder.ops =
      [BuilderOp.cipherList CIPHER_LIST, BuilderOp.chromeNewCurves,
        BuilderOp.alpnProtos ["h2", "http/1.1"],
        BuilderOp.certVerification true] :=
  cronet_pipeline_order 0 cronetDefaultCtx [none] true cronetSampleConnector
    (by rw [create_connector_eq ⟨cronetBuilder, 0⟩ cronetDefaultCtx [none] true
        cronetBuilderValue rfl]; rfl)

/-- C8: the Cronet HTTP/2 settings mapping is pure and deterministic and
always yields exactly the claimed record, with `max_concurrent_streams`
unset (no override) rather than an explicit zero. -/
theorem cronet_http2_settings (headers : HeaderMap) (store : SessionStore) :
    (get_settings headers store).1.http2 =
      ⟨some 6291456, some 15728640, none, some 262144, some 65536,
        some false⟩ ∧
    ∀ (headers2 : HeaderMap) (store2 : SessionStore),
      (get_settings headers2 store2).1.http2 =
        (get_settings headers store).1.http2 :=
  ⟨rfl, fun _ _ => rfl⟩

/-- C4 counterexample: with the builder closure succeeding (step 1) and the
whole extension pipeline succeeding (step 2), `create_connector` still
returns an error when the external secure-connector constructor invoked
downstream of the configured builder fails — the source propagates that
constructor's error with a question mark, so a step downstream of a
successfully configured builder does produce a fatal error. -/
theorem create_connector_downstream_error_cex :
    (BoringTlsConnector.mk cronetBuilder 0).builder =
      Except.ok cronetBuilderValue ∧
    (do
      let b ← (BoringTlsConnector.mk cronetBuilder 0).builder
      let b2 ← b.configure_alpn_protos cronetDefaultCtx.h2
      b2.configure_cert_verification cronetDefaultCtx.certs_verification :
        Except ErrorStack SslConnectorBuilder) =
      Except.ok (pipelineBuilder cronetBuilderValue cronetDefaultCtx) ∧
    ((BoringTlsConnector.mk cronetBuilder 0).create_connector cronetDefaultCtx
      [none] false).1 = Except.error ErrorStack.errorStack :=
  ⟨rfl, rfl,
    by rw [create_connector_eq ⟨cronetBuilder, 0⟩ cronetDefaultCtx [none] false
        cronetBuilderValue rfl]; rfl⟩

/-- C4 amended: `create_connector` returns an error only from step 1 (the
builder closure), step 2 (the extension pipeline) or the external
secure-connector constructor of step 3; downstream of a successful
construction nothing fails: builder success together with constructor
success yields the fully determined connector. -/
theorem create_connector_error_sources (self : BoringTlsConnector)
    (ctx : ImpersonateContext) (store : SessionStore) (ctorOk : Bool) :
    (∀ b, self.builder = Except.ok b → ctorOk = true →
      (self.create_connector ctx store ctorOk).1 =
        Except.ok (builtConnector b ctx store self.sessionRef)) ∧
    (∀ e, (self.create_connector ctx store ctorOk).1 = Except.error e →
      self.builder = Except.error e ∨ ctorOk = false) := by
  constructor
  · intro b hb hc
    subst hc
    rw [create_connector_eq self ctx store true b hb]
    by_cases hg : (psk_extension ctx.impersonate || ctx.pre_shared_key) = true <;>
      simp [hg]
  · intro e he
    cases hb : self.builder with
    | error e2 =>
      rw [create_connector_builder_error self ctx store ctorOk e2 hb] at he
      exact Or.inl (congrArg Except.error (Except.error.inj he))
    | ok b =>
      by_cases hc : ctorOk = true
      · subst hc
        rw [create_connector_eq self ctx store true b hb] at he
        by_cases hg : (psk_extension ctx.impersonate || ctx.pre_shared_key) = true <;>
          simp [hg] at he
      · exact Or.inr (by simpa using hc)

/-- C4 amended witness: on the Cronet wrapper with the constructor
succeeding, `create_connector` returns exactly the built connector. -/
theorem create_connector_error_sources_witness :
    ((BoringTlsConnector.mk cronetBuilder 0).create_connector cronetDefaultCtx
      [none] true).1 = Except.ok cronetSampleConnector :=
  (create_connector_error_sources ⟨cronetBuilder, 0⟩ cronetDefaultCtx [none]
    true).1 cronetBuilderValue rfl rfl

/-- C5: under a gated profile/flag combination the session cache is created
lazily with the default capacity 8 exactly on the first call (the cell
goes from uninitialized to holding a capacity-8 cache), every later gated
call on the same wrapper finds the cell initialized and reuses the stored
instance without touching it, and the settings handed to the connector
carry capacity 8 together with that same cache. -/
theorem session_cache_lazy_once (self : BoringTlsConnector)
    (ctx : ImpersonateContext) (store : SessionStore)
    (b : SslConnectorBuilder) (hb : self.builder = Except.ok b)
    (hg : (psk_extension ctx.impersonate || ctx.pre_shared_key) = true) :
    DEFAULT_SESSION_CACHE_CAPACITY = 8 ∧
    (store[self.sessionRef]? = some none →
      (self.create_connector ctx store true).2 =
        store.set self.sessionRef (some (SessionCache.with_capacity 8)) ∧
      ∀ conn, (self.create_connector ctx store true).1 = Except.ok conn →
        conn.settings = some ⟨8, SessionCache.with_capacity 8⟩) ∧
    (∀ s, store[self.sessionRef]? = some (some s) →
      (self.create_connector ctx store true).2 = store ∧
      ∀ conn, (self.create_connector ctx store true).1 = Except.ok conn →
        conn.settings = some ⟨8, s⟩) := by
  rw [create_connector_eq self ctx store true b hb]
  refine ⟨rfl, ?_, ?_⟩
  · intro hcell
    refine ⟨by simp [hg, getOrInitSession, hcell, DEFAULT_SESSION_CACHE_CAPACITY], ?_⟩
    intro conn h
    simp only [hg, if_true, Except.ok.injEq] at h
    subst h
    simp [builtConnector, hg, getOrInitSession, hcell,
      HttpsConnector.with_connector_and_settings,
      HttpsConnector.set_impersonate_callback, DEFAULT_SESSION_CACHE_CAPACITY,
      SessionCache.with_capacity]
  · intro s hcell
    refine ⟨by simp [hg, getOrInitSession, hcell], ?_⟩
    intro conn h
    simp only [hg, if_true, Except.ok.injEq] at h
    subst h
    simp [builtConnector, hg, getOrInitSession, hcell,
      HttpsConnector.with_connector_and_settings,
      HttpsConnector.set_impersonate_callback, DEFAULT_SESSION_CACHE_CAPACITY]

/-- C5 witness: first gated call on a fresh Cronet wrapper initializes the
single cell with a capacity-8 cache and hands the connector settings with
capacity 8. -/
theorem session_cache_lazy_once_witness :
    (([(none : SessionCell)] : SessionStore)[0]? = some none) ∧
    ((⟨cronetBuilder, 0⟩ : BoringTlsConnector).create_connector
        cronetDefaultCtx [none] true).2 =
      [(none : SessionCell)].set 0 (some (SessionCache.with_capacity 8)) :=
  ⟨rfl,
    ((session_cache_lazy_once ⟨cronetBuilder, 0⟩ cronetDefaultCtx [none]
      cronetBuilderValue rfl (by decide)).2.1 rfl).1⟩

/-- C9: cloning a `BoringTlsConnector` copies the two `Arc` pointers, so a
clone shares the builder and the session cell with the original; a gated
call through the clone following a gated call through the original
allocates no second cache — the store is unchanged by the second call and
both connectors reference the same session instance. -/
theorem clone_shares_session_cache (bf : Except ErrorStack SslConnectorBuilder)
    (store0 : SessionStore) (ctx1 ctx2 : ImpersonateContext)
    (b : SslConnectorBuilder) (hb : bf = Except.ok b)
    (hg1 : (psk_extension ctx1.impersonate || ctx1.pre_shared_key) = true)
    (hg2 : (psk_extension ctx2.impersonate || ctx2.pre_shared_key) = true) :
    ∀ c store1, BoringTlsConnector.new bf store0 = (c, store1) →
      c.clone = c ∧
      c.clone.builder = c.builder ∧
      c.clone.sessionRef = c.sessionRef ∧
      (c.clone.create_connector ctx2
          (c.create_connector ctx1 store1 true).2 true).2 =
        (c.create_connector ctx1 store1 true).2 ∧
      ∀ conn1 conn2,
        (c.create_connector ctx1 store1 true).1 = Except.ok conn1 →
        (c.clone.create_connector ctx2
          (c.create_connector ctx1 store1 true).2 true).1 = Except.ok conn2 →
        conn1.settings.map (fun st => st.session_cache) =
          conn2.settings.map (fun st => st.session_cache) := by
  intro c store1 hnew
  rw [BoringTlsConnector.new] at hnew
  injection hnew with hc hs
  subst hc
  subst hs
  have hb' : (BoringTlsConnector.mk bf store0.length).builder = Except.ok b := hb
  have hget1 : getOrInitSession (store0 ++ [none]) store0.length =
      (SessionCache.with_capacity DEFAULT_SESSION_CACHE_CAPACITY,
        store0 ++ [some (SessionCache.with_capacity
          DEFAULT_SESSION_CACHE_CAPACITY)]) := by
    unfold getOrInitSession
    rw [List.getElem?_concat_length]
    simp
  have hget2 : getOrInitSession
      (store0 ++ [some (SessionCache.with_capacity
        DEFAULT_SESSION_CACHE_CAPACITY)]) store0.length =
      (SessionCache.with_capacity DEFAULT_SESSION_CACHE_CAPACITY,
        store0 ++ [some (SessionCache.with_capacity
          DEFAULT_SESSION_CACHE_CAPACITY)]) := by
    unfold getOrInitSession
    rw [List.getElem?_concat_length]
  have hcall1 : (BoringTlsConnector.mk bf store0.length).create_connector ctx1
      (store0 ++ [none]) true =
      (Except.ok (builtConnector b ctx1 (store0 ++ [none]) store0.length),
        store0 ++ [some (SessionCache.with_capacity
          DEFAULT_SESSION_CACHE_CAPACITY)]) := by
    rw [create_connector_eq (BoringTlsConnector.mk bf store0.length) ctx1
      (store0 ++ [none]) true b hb']
    simp [hg1, hget1]
  have hcall2 : (BoringTlsConnector.mk bf store0.length).create_connector ctx2
      (store0 ++ [some (SessionCache.with_capacity
        DEFAULT_SESSION_CACHE_CAPACITY)]) true =
      (Except.ok (builtConnector b ctx2
        (store0 ++ [some (SessionCache.with_capacity
          DEFAULT_SESSION_CACHE_CAPACITY)]) store0.length),
        store0 ++ [some (SessionCache.with_capacity
          DEFAULT_SESSION_CACHE_CAPACITY)]) := by
    rw [create_connector_eq (BoringTlsConnector.mk bf store0.length) ctx2
      (store0 ++ [some (SessionCache.with_capacity
        DEFAULT_SESSION_CACHE_CAPACITY)]) true b hb']
    simp [hg2, hget2]
  simp only [BoringTlsConnector.clone, hcall1, hcall2]
  refine ⟨trivial, trivial, trivial, by simp, ?_⟩
  intro conn1 conn2 h1 h2
  simp only [Except.ok.injEq] at h1 h2
  subst h1
  subst h2
  simp [builtConnector, hg1, hg2, hget1, hget2,
    HttpsConnector.with_connector_and_settings,
    HttpsConnector.set_impersonate_callback]

/-- C9 witness: on a fresh Cronet wrapper and its clone, a pair of gated
calls leaves the once-initialized single-cell store unchanged. -/
theorem clone_shares_session_cache_witness :
    ((⟨cronetBuilder, 0⟩ : BoringTlsConnector).clone.create_connector
        cronetDefaultCtx
        ((⟨cronetBuilder, 0⟩ : BoringTlsConnector).create_connector
          cronetDefaultCtx [none] true).2 true).2 =
      ((⟨cronetBuilder, 0⟩ : BoringTlsConnector).create_connector
        cronetDefaultCtx [none] true).2 :=
  ((clone_shares_session_cache cronetBuilder [] cronetDefaultCtx
    cronetDefaultCtx cronetBuilderValue rfl (by decide) (by decide))
    ⟨cronetBuilder, 0⟩ [none] rfl).2.2.2.1

/-- Helper: `find?` is unaffected by a `filter` that only removes elements
the search predicate rejects. -/
theorem find?_filter_of_imp {α : Type} (q r : α → Bool) (l : List α)
    (h : ∀ x, q x = true → r x = true) :
    (l.filter r).find? q = l.find? q := by
  induction l with
  | nil => rfl
  | cons a t ih =>
    by_cases hq : q a = true
    · rw [List.filter_cons, h a hq]
      simp only [if_true]
      rw [List.find?_cons_of_pos t hq, List.find?_cons_of_pos (t.filter r) hq]
    · rw [List.filter_cons]
      by_cases hr : r a = true
      · simp only [hr, if_true]
        rw [List.find?_cons_of_neg (t.filter r) (by simp [hq]),
          List.find?_cons_of_neg t (by simp [hq])]
        exact ih
      · simp only [hr, Bool.false_eq_true, if_false]
        rw [List.find?_cons_of_neg t (by simp [hq])]
        exact ih

/-- C10: `create_headers` overwrites the Accept-Encoding entry of the input
header map with exactly the fixed value, replacing any caller-supplied
value, while the entries under every other name pass through unchanged;
`get_settings` returns that header map and always sets `gzip = true` and
`brotli = true`. -/
theorem cronet_headers_effect (headers : HeaderMap) (store : SessionStore) :
    (get_settings headers store).1.headers = create_headers headers ∧
    headerGet ACCEPT_ENCODING (create_headers headers) =
      some "gzip, deflate, br, zstd" ∧
    (create_headers headers).filter (fun p => p.1 ≠ ACCEPT_ENCODING) =
      headers.filter (fun p => p.1 ≠ ACCEPT_ENCODING) ∧
    (∀ k, k ≠ ACCEPT_ENCODING →
      headerGet k (create_headers headers) = headerGet k headers) ∧
    (get_settings headers store).1.gzip = true ∧
    (get_settings headers store).1.brotli = true := by
  refine ⟨rfl, ?_, ?_, ?_, rfl, rfl⟩
  · unfold headerGet create_headers headerInsert
    rw [List.find?_append]
    have hnone : (headers.filter
        (fun p => p.1 ≠ ACCEPT_ENCODING)).find?
          (fun p => decide (p.1 = ACCEPT_ENCODING)) = none := by
      rw [List.find?_eq_none]
      intro x hx
      have := List.of_mem_filter hx
      simpa using this
    rw [hnone]
    simp
  · unfold create_headers headerInsert
    rw [List.filter_append, List.filter_filter]
    simp
  · intro k hk
    unfold headerGet create_headers headerInsert
    rw [List.find?_append,
      find?_filter_of_imp (fun p => decide (p.1 = k))
        (fun p => decide (p.1 ≠ ACCEPT_ENCODING)) headers
        (by intro x hx; simp at hx ⊢; rw [hx]; exact hk)]
    cases hfind : headers.find? (fun p => decide (p.1 = k)) with
    | none => simp [hfind, Ne.symm hk]
    | some p => simp

/-- C10 witness: a caller-supplied Accept-Encoding value is replaced, and a
different header passes through unchanged. -/
theorem cronet_headers_effect_witness :
    headerGet "user-agent"
        (create_headers [("user-agent", "cronet"),
          ("accept-encoding", "identity")]) =
      headerGet "user-agent"
        [("user-agent", "cronet"), ("accept-encoding", "identity")] :=
  ((cronet_headers_effect [("user-agent", "cronet"),
    ("accept-encoding", "identity")] []).2.2.2.1 "user-agent" (by decide))

end Rquest
